import Mathlib

/-
Verification development for the hybrid-social-network-client of the
w3b2-solana repository (src/examples/hybrid-social-network-client/app.py).
The Python source is shallowly embedded below: pure computations become
Lean functions on Nat / Int / lists of byte values, fallible computations
return Except or Option, and the thread loops become explicit step
functions over small state records.
-/

namespace W3b2Client

/-! ## Authorization message codec

Embeds the construction of msg_to_sign in Bot.send_message,
Bot.simulate_file_transfer, Bot.use_paid_feature and SocialApp.run_ui:
command_id.to_bytes(2, little) + price.to_bytes(8, little)
+ timestamp.to_bytes(8, little, signed). -/

/-- Little-endian encoding of a natural number into exactly k bytes,
as Python int.to_bytes(k, little) for an in-range value. -/
def toBytesLE : Nat → Nat → List Nat
  | 0, _ => []
  | k + 1, n => n % 256 :: toBytesLE k (n / 256)

/-- Little-endian reading of a byte list back into a natural number. -/
def fromBytesLE : List Nat → Nat
  | [] => 0
  | b :: bs => b + 256 * fromBytesLE bs

/-- Python int.to_bytes(8, little, signed=True) for an int64 value:
the two-complement residue of the value modulo 2^64, little-endian. -/
def int64ToBytesLE (t : Int) : List Nat :=
  toBytesLE 8 (t % (2 ^ 64)).toNat

/-- The 18-byte authorization message, exactly as each dispatch site
builds msg_to_sign in app.py. -/
def encodeAuthMessage (commandId price : Nat) (timestamp : Int) : List Nat :=
  toBytesLE 2 commandId ++ toBytesLE 8 price ++ int64ToBytesLE timestamp

/-- Signed little-endian reading of an 8-byte list as an int64. -/
def decodeInt64LE (bs : List Nat) : Int :=
  let n := fromBytesLE bs
  if n < 2 ^ 63 then (n : Int) else (n : Int) - 2 ^ 64

/-- Modelled from the spec: the decoder for the wire-exact layout of
section 6 (bytes 0..2 command_id LE, 2..10 price LE, 10..18 timestamp LE
signed). The repository source under src contains only the encoder; this
definition follows the layout the spec states. -/
def decodeAuthMessage (bs : List Nat) : Option (Nat × Nat × Int) :=
  if bs.length = 18 then
    some (fromBytesLE (bs.take 2),
          fromBytesLE ((bs.drop 2).take 8),
          decodeInt64LE (bs.drop 10))
  else none

end W3b2Client

namespace W3b2Client


/-! ## Event stream consumer (SocialApp.listen_for_events)

The gateway pushes events per monitored identity. The consumer body
classifies each event under the shared lock: an MSG: payload is decoded
as UTF-8 (a strict decode that raises on invalid bytes, as Python
bytes.decode does) and the text after the first colon is appended as a
chat entry; command_id 2 and 3 append fixed notices; a user_banned event
sets the listener identity status to Banned and appends an admin notice;
anything else is ignored. -/

/-- One-scalar-at-a-time strict UTF-8 decoder state machine. pending is
the number of continuation bytes still expected, acc the code point
being assembled, minCp the smallest code point the current sequence may
legally produce (overlong rejection). Returns the code points, or none
exactly when Python bytes.decode(utf-8) raises: stray continuation
bytes, bad lead bytes, overlong forms, surrogates, values past U+10FFFF
and truncated sequences are rejected. -/
def utf8Run : Nat → Nat → Nat → List Nat → Option (List Nat)
  | 0, _, _, [] => some []
  | _ + 1, _, _, [] => none
  | 0, _, _, b :: rest =>
    if b < 128 then (utf8Run 0 0 0 rest).map (fun t => b :: t)
    else if b < 194 then none
    else if b < 224 then utf8Run 1 (b - 192) 128 rest
    else if b < 240 then utf8Run 2 (b - 224) 2048 rest
    else if b < 245 then utf8Run 3 (b - 240) 65536 rest
    else none
  | p + 1, acc, minCp, b :: rest =>
    if 128 ≤ b ∧ b < 192 then
      match p with
      | 0 =>
        if acc * 64 + (b - 128) < minCp ∨
            (55296 ≤ acc * 64 + (b - 128) ∧ acc * 64 + (b - 128) < 57344) ∨
            1114111 < acc * 64 + (b - 128) then none
        else (utf8Run 0 0 0 rest).map (fun t => (acc * 64 + (b - 128)) :: t)
      | q + 1 => utf8Run (q + 1) (acc * 64 + (b - 128)) minCp rest
    else none

/-- Strict UTF-8 decoding of a byte list into characters, as Python
bytes.decode(utf-8). -/
def utf8DecodeChars (l : List Nat) : Option (List Char) :=
  (utf8Run 0 0 0 l).map (fun cps => cps.map Char.ofNat)

/-- UTF-8 encoding of one code point, as Python str.encode(utf-8). -/
def utf8EncodeChar (c : Nat) : List Nat :=
  if c < 128 then [c]
  else if c < 2048 then [192 + c / 64, 128 + c % 64]
  else if c < 65536 then [224 + c / 4096, 128 + c / 64 % 64, 128 + c % 64]
  else [240 + c / 262144, 128 + c / 4096 % 64, 128 + c / 64 % 64, 128 + c % 64]

/-- UTF-8 encoding of a string, as Python str.encode(utf-8). -/
def utf8Encode (s : String) : List Nat :=
  (s.data.map (fun ch => utf8EncodeChar ch.toNat)).flatten

/-- Python bytes.startswith on byte lists. -/
def startsWithBytes : List Nat → List Nat → Bool
  | [], _ => true
  | _ :: _, [] => false
  | p :: ps, b :: bs => (p == b) && startsWithBytes ps bs

/-- The bytes of the literal payload marker MSG: checked by
payload.startswith in SocialApp.listen_for_events. -/
def msgMarker : List Nat := [77, 83, 71, 58]

/-- Python str.split(collon, 1) restricted to what the listener uses:
the text before and after the first colon, or none when the string has
no colon (in which case indexing element 1 raises). -/
def splitFirstColon : List Char → Option (List Char × List Char)
  | [] => none
  | c :: cs =>
    if c = ':' then some ([], cs)
    else
      match splitFirstColon cs with
      | some p => some (c :: p.1, p.2)
      | none => none

/-- The profile addresses the listener compares a sender against
(self.alice_pda and self.bob_pda). -/
structure ListenerCfg where
  alicePda : Nat
  bobPda : Nat
deriving DecidableEq

/-- One event from the gateway stream, the discriminated union read off
item.event.WhichOneof in SocialApp.listen_for_events. -/
inductive StreamEvent
  | userCommandDispatched (senderPda : Nat) (commandId : Nat) (payload : List Nat)
  | userBanned
  | other
deriving DecidableEq

/-- The shared session state the listener mutates: the ordered chat log
and the bot-name to status map. -/
structure AppState where
  chatLog : List String
  botStatus : List (String × String)
deriving DecidableEq

/-- Python dict assignment on the status map. -/
def setStatus : List (String × String) → String → String → List (String × String)
  | [], k, v => [(k, v)]
  | (k1, v1) :: rest, k, v =>
    if k1 = k then (k, v) :: rest else (k1, v1) :: setStatus rest k v

/-- Sender-name resolution in the listener: default You, Alice when the
sender address equals alice_pda, Bob when it equals bob_pda. -/
def resolveName (alicePda bobPda senderPda : Nat) : String :=
  if senderPda = alicePda then "Alice"
  else if senderPda = bobPda then "Bob"
  else "You"

/-- The event-classification body of SocialApp.listen_for_events, run
under the shared lock for each stream item. Returns the updated shared
state, or an error when the strict UTF-8 decode of an MSG: payload
raises (only grpc.RpcError is caught by the surrounding loop). -/
def processEvent (cfg : ListenerCfg) (botName : String) (e : StreamEvent)
    (s : AppState) : Except Unit AppState :=
  match e with
  | StreamEvent.userCommandDispatched senderPda commandId payload =>
    let senderName := resolveName cfg.alicePda cfg.bobPda senderPda
    if startsWithBytes msgMarker payload then
      match utf8DecodeChars payload with
      | none => Except.error ()
      | some chars =>
        match splitFirstColon chars with
        | none => Except.error ()
        | some p =>
          Except.ok ⟨s.chatLog ++
            ["[" ++ senderName ++ "]: " ++ String.mk p.2], s.botStatus⟩
    else if commandId = 2 then
      Except.ok ⟨s.chatLog ++
        ["[" ++ senderName ++ "] sent a file transfer request."], s.botStatus⟩
    else if commandId = 3 then
      Except.ok ⟨s.chatLog ++
        ["[" ++ senderName ++ "] sent a paid sticker!"], s.botStatus⟩
    else Except.ok s
  | StreamEvent.userBanned =>
    Except.ok ⟨s.chatLog ++
      ["[ADMIN]: " ++ botName ++ " has been banned."],
      setStatus s.botStatus botName ("Banned")⟩
  | StreamEvent.other => Except.ok s



/-! ## Turn scheduler (SocialApp.run_bot_chat)

A round robin over the two bots: even turns act as Alice, odd turns as
Bob. A banned sender only advances the turn. Otherwise the action is
selected from the acting bot message_count and dispatched; the count and
the turn advance after a successful dispatch. -/

/-- The acting bot of a turn: Alice on even turns, Bob on odd turns. -/
def senderName (turn : Nat) : String :=
  if turn % 2 = 0 then "Alice" else "Bob"

/-- The command_id and price of a selected action. -/
structure ActionSel where
  commandId : Nat
  price : Nat
deriving DecidableEq

/-- The action-selection policy of run_action in SocialApp.run_bot_chat,
on the acting bot message_count: count > 0 and count mod 8 = 0 gives the
paid sticker (use_paid_feature), else count > 0 and count mod 5 = 0
gives the simulated file transfer, else the plain message. -/
def selectAction (n : Nat) : ActionSel :=
  if 0 < n ∧ n % 8 = 0 then ⟨3, 1000000⟩
  else if 0 < n ∧ n % 5 = 0 then ⟨2, 0⟩
  else ⟨1, 0⟩

/-- The scheduler state: the turn counter of run_bot_chat and the
message_count of each bot. -/
structure SchedState where
  turn : Nat
  aliceCount : Nat
  bobCount : Nat
deriving DecidableEq

/-- One successful iteration of the run_bot_chat loop: a banned sender
only advances the turn with no dispatch; otherwise the selected action
is dispatched and the sender count and the turn advance. -/
def botChatStep (status : List (String × String)) (s : SchedState) :
    SchedState × Option ActionSel :=
  if status.lookup (senderName s.turn) = some ("Banned") then
    (⟨s.turn + 1, s.aliceCount, s.bobCount⟩, none)
  else if s.turn % 2 = 0 then
    (⟨s.turn + 1, s.aliceCount + 1, s.bobCount⟩, some (selectAction s.aliceCount))
  else
    (⟨s.turn + 1, s.aliceCount, s.bobCount + 1⟩, some (selectAction s.bobCount))

/-- The run_bot_chat loop with an oracle of dispatch outcomes, one per
iteration (true: the dispatch succeeded; false: it raised). The loop
body has no exception handler, so a raising dispatch propagates out of
the loop and terminates it: the second component reports whether the
loop died that way. -/
def runBotChat (status : List (String × String)) :
    SchedState → List Bool → SchedState × Bool
  | s, [] => (s, false)
  | s, ok :: rest =>
    if status.lookup (senderName s.turn) = some ("Banned") then
      runBotChat status ⟨s.turn + 1, s.aliceCount, s.bobCount⟩ rest
    else if ok then runBotChat status (botChatStep status s).1 rest
    else (s, true)

/-! ## Reconnect policy of SocialApp.listen_for_events

Each subscription attempt either fails with a gRPC error after some
duration (caught, followed by time.sleep(5) and another while-loop
iteration) or the stream ends normally after some duration (the for
loop finishes and the while loop immediately retries, with no sleep). -/

/-- The fate of one subscription attempt: a gRPC error after dur time
units of streaming, or normal stream termination after dur time units. -/
inductive StreamOutcome
  | rpcError (dur : Nat)
  | ended (dur : Nat)
deriving DecidableEq

/-- The times at which listen_for_events opens a subscription, starting
at time t, given the outcome of each successive attempt and no stop
signal: a gRPC error at time t + dur is followed by the fixed 5-unit
sleep before the next attempt; a normally ended stream is followed by an
immediate retry. -/
def attemptTimes : Nat → List StreamOutcome → List Nat
  | t, [] => [t]
  | t, StreamOutcome.rpcError d :: rest => t :: attemptTimes (t + d + 5) rest
  | t, StreamOutcome.ended d :: rest => t :: attemptTimes (t + d) rest

/-! ## Shared-state mutations and the lock (claims about locking)

Each code path that mutates st.session_state.chat_log or
st.session_state.bot_status is recorded with the lock discipline the
source gives it: the listener body runs inside with self.lock, while the
two ban buttons and the human message form in SocialApp.run_ui append to
the chat log with no lock acquisition. -/

/-- A target of a shared-state mutation. -/
inductive MutTarget
  | chatLogTarget
  | statusMapTarget
deriving DecidableEq

/-- One mutation of the shared state, with whether the mutating code
holds self.lock. -/
structure SharedMutation where
  target : MutTarget
  underLock : Bool
deriving DecidableEq

/-- The shared-state mutations performed by the listener for one stream
event; the whole classification body is inside with self.lock. -/
def listenerMutations : StreamEvent → List SharedMutation
  | StreamEvent.userCommandDispatched _ commandId payload =>
    if startsWithBytes msgMarker payload then
      match utf8DecodeChars payload with
      | some chars =>
        match splitFirstColon chars with
        | some _ => [⟨MutTarget.chatLogTarget, true⟩]
        | none => []
      | none => []
    else if commandId = 2 then [⟨MutTarget.chatLogTarget, true⟩]
    else if commandId = 3 then [⟨MutTarget.chatLogTarget, true⟩]
    else []
  | StreamEvent.userBanned =>
    [⟨MutTarget.statusMapTarget, true⟩, ⟨MutTarget.chatLogTarget, true⟩]
  | StreamEvent.other => []

/-- The chat-log append performed by each admin ban button in
SocialApp.run_ui before the ban RPC; the source takes no lock there. -/
def banButtonMutations : List SharedMutation :=
  [⟨MutTarget.chatLogTarget, false⟩]

/-- The chat-log append performed by the human message form in
SocialApp.run_ui before dispatching; the source takes no lock there. -/
def humanMessageFormMutations : List SharedMutation :=
  [⟨MutTarget.chatLogTarget, false⟩]

/-! ## One-shot setup in main

main runs setup_onchain_state plus the human profile creation once,
inside a try block; on success the chat log and the bot statuses are
initialized and the background threads start, on any exception the
failure is printed, echoed into the chat log, both bot statuses become
Error and no threads start. run_ui is called in either case. -/

/-- The observable result of the first-run initialization in main. -/
structure InitResult where
  chatLog : List String
  botStatus : List (String × String)
  opLog : List String
  threadsStarted : Bool
  uiRuns : Bool
deriving DecidableEq

/-- The first-run branch of main, as a function of whether the one-shot
on-chain setup sequence succeeded or raised with a message. -/
def mainInit (setup : Except String Unit) : InitResult :=
  match setup with
  | Except.ok _ =>
    ⟨["Welcome to the Hybrid Social Network!"],
      [("Alice", "Online"), ("Bob", "Online")],
      ["--- All background threads started. UI is ready. ---"],
      true, true⟩
  | Except.error e =>
    ⟨["ERROR: On-chain setup failed: " ++ e],
      [("Alice", "Error"), ("Bob", "Error")],
      ["!!! ON-CHAIN SETUP FAILED: " ++ e],
      false, true⟩

/-! ## Command dispatch sites

The four dispatch sites of app.py, each recorded with the command_id,
price and timestamp it passes to user_dispatch_command, the payload, the
key that signs the authorization message (a fresh Keypair() for the
free commands, self.app.admin for the paid sticker) and the msg_to_sign
bytes built at the site. -/

/-- The key used as the price oracle at a dispatch site. -/
inductive OracleKey
  | freshKeypair
  | adminKey
deriving DecidableEq

/-- A call to user_dispatch_command with its authorization data. -/
structure DispatchCall where
  commandId : Nat
  price : Nat
  timestamp : Int
  payload : List Nat
  oracle : OracleKey
  msgToSign : List Nat
deriving DecidableEq

/-- Bot.send_message: command_id 1, price 0, payload MSG:message, a
dummy fresh oracle keypair, msg_to_sign built from the same values. -/
def sendMessageCall (ts : Int) (message : String) : DispatchCall :=
  ⟨1, 0, ts, utf8Encode ("MSG:" ++ message), OracleKey.freshKeypair,
    toBytesLE 2 1 ++ toBytesLE 8 0 ++ int64ToBytesLE ts⟩

/-- Bot.simulate_file_transfer: command_id 2, price 0, the serialized
CommandConfig bytes as payload (serialization done by the external
protobuf library), a fresh oracle keypair, msg_to_sign from the same
values. -/
def fileTransferCall (ts : Int) (serializedConfig : List Nat) : DispatchCall :=
  ⟨2, 0, ts, serializedConfig, OracleKey.freshKeypair,
    toBytesLE 2 2 ++ toBytesLE 8 0 ++ int64ToBytesLE ts⟩

/-- Bot.use_paid_feature: command_id 3, price 1000000, the sticker
payload, the admin key as oracle, msg_to_sign from the same values. -/
def paidFeatureCall (ts : Int) : DispatchCall :=
  ⟨3, 1000000, ts, utf8Encode ("STICKER:smiley_face"), OracleKey.adminKey,
    toBytesLE 2 3 ++ toBytesLE 8 1000000 ++ int64ToBytesLE ts⟩

/-- The human message form in SocialApp.run_ui: command_id 1, price 0,
payload MSG:text, a dummy fresh oracle keypair, msg_to_sign from the
same values. -/
def humanMessageCall (ts : Int) (text : String) : DispatchCall :=
  ⟨1, 0, ts, utf8Encode ("MSG:" ++ text), OracleKey.freshKeypair,
    toBytesLE 2 1 ++ toBytesLE 8 0 ++ int64ToBytesLE ts⟩


theorem toBytesLE_length (k : Nat) : ∀ n, (toBytesLE k n).length = k := by
  induction k with
  | zero => intro n; rfl
  | succ k ih => intro n; simp [toBytesLE, ih]

theorem fromBytesLE_toBytesLE (k : Nat) :
    ∀ n, n < 256 ^ k → fromBytesLE (toBytesLE k n) = n := by
  induction k with
  | zero => intro n h; interval_cases n; rfl
  | succ k ih =>
    intro n h
    have hdiv : n / 256 < 256 ^ k := by
      rw [Nat.div_lt_iff_lt_mul (by norm_num)]
      calc n < 256 ^ (k + 1) := h
        _ = 256 ^ k * 256 := by ring
    simp only [toBytesLE, fromBytesLE, ih (n / 256) hdiv]
    omega

theorem encodeAuthMessage_take2 (c p : Nat) (t : Int) :
    (encodeAuthMessage c p t).take 2 = toBytesLE 2 c := rfl

theorem encodeAuthMessage_mid8 (c p : Nat) (t : Int) :
    ((encodeAuthMessage c p t).drop 2).take 8 = toBytesLE 8 p := rfl

theorem encodeAuthMessage_drop10 (c p : Nat) (t : Int) :
    (encodeAuthMessage c p t).drop 10 = int64ToBytesLE t := rfl



/-- C1: for every valid (command_id, price, timestamp) triple, the
authorization encoding is exactly 18 bytes, laid out as bytes 0..2 =
command_id little-endian, bytes 2..10 = price little-endian, bytes
10..18 = timestamp little-endian signed, and decoding those 18 bytes per
that layout yields the triple back. -/
theorem c1_auth_codec_roundtrip (commandId price : Nat) (ts : Int)
    (h1 : commandId < 2 ^ 16) (h2 : price < 2 ^ 64)
    (h3 : -(2 ^ 63) ≤ ts) (h4 : ts < 2 ^ 63) :
    (encodeAuthMessage commandId price ts).length = 18 ∧
    (encodeAuthMessage commandId price ts).take 2 = toBytesLE 2 commandId ∧
    ((encodeAuthMessage commandId price ts).drop 2).take 8 = toBytesLE 8 price ∧
    (encodeAuthMessage commandId price ts).drop 10 = int64ToBytesLE ts ∧
    decodeAuthMessage (encodeAuthMessage commandId price ts) =
      some (commandId, price, ts) := by
  have hlen : (encodeAuthMessage commandId price ts).length = 18 := by
    simp [encodeAuthMessage, int64ToBytesLE, toBytesLE_length]
  refine ⟨hlen, encodeAuthMessage_take2 commandId price ts,
    encodeAuthMessage_mid8 commandId price ts,
    encodeAuthMessage_drop10 commandId price ts, ?_⟩
  have hm0 : (0 : Int) ≤ ts % (2 ^ 64) := Int.emod_nonneg ts (by norm_num)
  have hm1 : ts % (2 ^ 64) < 2 ^ 64 := Int.emod_lt_of_pos ts (by norm_num)
  have hmlt : (ts % (2 ^ 64)).toNat < 256 ^ 8 := by
    have h64 : (256 : Nat) ^ 8 = 2 ^ 64 := by norm_num
    omega
  rw [decodeAuthMessage, if_pos hlen, encodeAuthMessage_take2,
    encodeAuthMessage_mid8, encodeAuthMessage_drop10,
    fromBytesLE_toBytesLE 2 commandId (by norm_num at h1 ⊢; omega),
    fromBytesLE_toBytesLE 8 price (by norm_num at h2 ⊢; omega)]
  unfold int64ToBytesLE decodeInt64LE
  rw [fromBytesLE_toBytesLE 8 _ hmlt]
  have hts : (if ((ts % (2 ^ 64)).toNat : Nat) < 2 ^ 63
      then (((ts % (2 ^ 64)).toNat : Nat) : Int)
      else (((ts % (2 ^ 64)).toNat : Nat) : Int) - 2 ^ 64) = ts := by
    split <;> omega
  simp only [hts]

/-- Witness for c1_auth_codec_roundtrip at the concrete triple
(command_id 3, price 1000000, timestamp -7). -/
theorem c1_auth_codec_roundtrip_witness :
    decodeAuthMessage (encodeAuthMessage 3 1000000 (-7)) =
      some (3, 1000000, (-7 : Int)) :=
  (c1_auth_codec_roundtrip 3 1000000 (-7) (by norm_num) (by norm_num)
    (by norm_num) (by norm_num)).2.2.2.2


theorem utf8Run_ascii (b : Nat) (rest : List Nat) (h : b < 128) :
    utf8Run 0 0 0 (b :: rest) =
      (utf8Run 0 0 0 rest).map (fun t => b :: t) := by
  simp only [utf8Run, if_pos h]

theorem utf8Run_msgHead (rest : List Nat) :
    utf8Run 0 0 0 (77 :: 83 :: 71 :: 58 :: rest) =
      (utf8Run 0 0 0 rest).map (fun t => 77 :: 83 :: 71 :: 58 :: t) := by
  rw [utf8Run_ascii 77 _ (by norm_num), utf8Run_ascii 83 _ (by norm_num),
    utf8Run_ascii 71 _ (by norm_num), utf8Run_ascii 58 _ (by norm_num)]
  cases utf8Run 0 0 0 rest <;> rfl

theorem startsWithBytes_msgMarker (payload : List Nat)
    (h : startsWithBytes msgMarker payload = true) :
    payload = 77 :: 83 :: 71 :: 58 :: payload.drop 4 := by
  rcases payload with - | ⟨b0, - | ⟨b1, - | ⟨b2, - | ⟨b3, rest⟩⟩⟩⟩ <;>
    simp only [msgMarker, startsWithBytes, Bool.and_eq_true, beq_iff_eq,
      Bool.and_false, Bool.false_eq_true] at h
  obtain ⟨h0, h1, h2, h3, -⟩ := h
  subst h0; subst h1; subst h2; subst h3
  rfl

theorem utf8DecodeChars_msgMarker (payload : List Nat)
    (h : startsWithBytes msgMarker payload = true) :
    utf8DecodeChars payload =
      (utf8DecodeChars (payload.drop 4)).map
        (fun t => 'M' :: 'S' :: 'G' :: ':' :: t) := by
  have hp := startsWithBytes_msgMarker payload h
  calc utf8DecodeChars payload
      = utf8DecodeChars (77 :: 83 :: 71 :: 58 :: payload.drop 4) := by rw [← hp]
    _ = (utf8DecodeChars (payload.drop 4)).map
          (fun t => 'M' :: 'S' :: 'G' :: ':' :: t) := by
        simp only [utf8DecodeChars, utf8Run_msgHead]
        cases utf8Run 0 0 0 (payload.drop 4) <;> rfl

theorem splitFirstColon_msg (t : List Char) :
    splitFirstColon ( 'M' :: 'S' :: 'G' :: ':' :: t) =
      some ([ 'M', 'S', 'G' ], t) := rfl

theorem lookup_setStatus (m : List (String × String)) (k v : String) :
    (setStatus m k v).lookup k = some v := by
  induction m with
  | nil => simp [setStatus, List.lookup]
  | cons kv rest ih =>
    obtain ⟨k1, v1⟩ := kv
    by_cases hk : k1 = k
    · simp [setStatus, hk, List.lookup]
    · simp only [setStatus, if_neg hk, List.lookup]
      have hbeq : (k == k1) = false := by
        cases hkk : k == k1
        · rfl
        · exact absurd (eq_of_beq hkk).symm hk
      rw [hbeq]
      exact ih


/-- C2 (amended): for a CommandDispatched event, an MSG: payload that
decodes as UTF-8 appends exactly one chat entry naming the resolved
sender followed by the decoded remainder after the prefix, leaving the
status map unchanged; an MSG: payload that is not valid UTF-8 raises a
decode error (and appends nothing); otherwise command_id 2 appends
exactly one file-transfer notice, command_id 3 exactly one paid-sticker
notice, and any other command_id appends nothing and raises no error. -/
theorem c2_event_classification (cfg : ListenerCfg) (botName : String)
    (senderPda commandId : Nat) (payload : List Nat) (s : AppState) :
    (∀ tail, startsWithBytes msgMarker payload = true →
      utf8DecodeChars (payload.drop 4) = some tail →
      processEvent cfg botName
          (StreamEvent.userCommandDispatched senderPda commandId payload) s =
        Except.ok ⟨s.chatLog ++
          ["[" ++ resolveName cfg.alicePda cfg.bobPda senderPda ++ "]: " ++
            String.mk tail], s.botStatus⟩) ∧
    (startsWithBytes msgMarker payload = true →
      utf8DecodeChars payload = none →
      processEvent cfg botName
          (StreamEvent.userCommandDispatched senderPda commandId payload) s =
        Except.error ()) ∧
    (startsWithBytes msgMarker payload = false → commandId = 2 →
      processEvent cfg botName
          (StreamEvent.userCommandDispatched senderPda commandId payload) s =
        Except.ok ⟨s.chatLog ++
          ["[" ++ resolveName cfg.alicePda cfg.bobPda senderPda ++
            "] sent a file transfer request."], s.botStatus⟩) ∧
    (startsWithBytes msgMarker payload = false → commandId ≠ 2 → commandId = 3 →
      processEvent cfg botName
          (StreamEvent.userCommandDispatched senderPda commandId payload) s =
        Except.ok ⟨s.chatLog ++
          ["[" ++ resolveName cfg.alicePda cfg.bobPda senderPda ++
            "] sent a paid sticker!"], s.botStatus⟩) ∧
    (startsWithBytes msgMarker payload = false → commandId ≠ 2 → commandId ≠ 3 →
      processEvent cfg botName
          (StreamEvent.userCommandDispatched senderPda commandId payload) s =
        Except.ok s) := by
  refine ⟨?_, ?_, ?_, ?_, ?_⟩
  · intro tail hpre hdec
    have hall : utf8DecodeChars payload =
        some ( 'M' :: 'S' :: 'G' :: ':' :: tail) := by
      rw [utf8DecodeChars_msgMarker payload hpre, hdec]; rfl
    simp only [processEvent, hpre, if_true, hall, splitFirstColon_msg]
  · intro hpre hnone
    simp only [processEvent, hpre, if_true, hnone]
  · intro hpre h2
    subst h2
    simp [processEvent, hpre]
  · intro hpre h2 h3
    subst h3
    simp [processEvent, hpre]
  · intro hpre h2 h3
    simp [processEvent, hpre, h2, h3]

/-- Witness for c2_event_classification on the payload bytes of
MSG:hi sent by the address registered as Alice. -/
theorem c2_event_classification_witness :
    processEvent ⟨1, 2⟩ ("Bob")
      (StreamEvent.userCommandDispatched 1 1 [77, 83, 71, 58, 104, 105]) ⟨[], []⟩ =
      Except.ok ⟨["[Alice]: hi"], []⟩ := by
  have h := (c2_event_classification ⟨1, 2⟩ ("Bob") 1 1
      [77, 83, 71, 58, 104, 105] ⟨[], []⟩).1 [ 'h', 'i' ] (by rfl) (by rfl)
  exact h

/-- C2 counterexample: the payload MSG: followed by the invalid byte
255 begins with the MSG: prefix, yet the consumer appends no chat entry
and instead raises a decode error, against the claim that exactly one
entry is appended. -/
theorem c2_invalid_utf8_cex :
    startsWithBytes msgMarker [77, 83, 71, 58, 255] = true ∧
    processEvent ⟨1, 2⟩ ("Alice")
      (StreamEvent.userCommandDispatched 3 1 [77, 83, 71, 58, 255]) ⟨[], []⟩ =
      Except.error () := ⟨rfl, rfl⟩

/-- C3: a UserBanned event on the stream of identity X sets
status[X] = Banned and appends exactly one admin notice naming X; a
scheduler turn whose acting identity is Banned is skipped with no
dispatch and scheduling advances to the next turn. -/
theorem c3_ban_event_and_skip (cfg : ListenerCfg) (botName : String)
    (s : AppState) (status : List (String × String)) (sch : SchedState)
    (h : status.lookup (senderName sch.turn) = some ("Banned")) :
    processEvent cfg botName StreamEvent.userBanned s =
      Except.ok ⟨s.chatLog ++ ["[ADMIN]: " ++ botName ++ " has been banned."],
        setStatus s.botStatus botName ("Banned")⟩ ∧
    (setStatus s.botStatus botName ("Banned")).lookup botName = some ("Banned") ∧
    botChatStep status sch = (⟨sch.turn + 1, sch.aliceCount, sch.bobCount⟩, none) := by
  refine ⟨rfl, lookup_setStatus s.botStatus botName ("Banned"), ?_⟩
  unfold botChatStep
  rw [if_pos h]

/-- Witness for c3_ban_event_and_skip with Alice banned at turn 0. -/
theorem c3_ban_event_and_skip_witness :
    processEvent ⟨1, 2⟩ ("Alice") StreamEvent.userBanned ⟨[], []⟩ =
      Except.ok ⟨["[ADMIN]: Alice has been banned."], [("Alice", "Banned")]⟩ ∧
    botChatStep [("Alice", "Banned")] ⟨0, 0, 0⟩ = (⟨1, 0, 0⟩, none) := by
  have h := c3_ban_event_and_skip ⟨1, 2⟩ ("Alice") ⟨[], []⟩
    [("Alice", "Banned")] ⟨0, 0, 0⟩ (by rfl)
  exact ⟨h.1, h.2.2⟩

/-- C4 counterexample: at counter 2 the scheduler selects the plain
text message with command_id 1, not the file transfer with command_id 2
the claim derives from a mod-2 policy. -/
theorem c4_mod2_cex :
    selectAction 2 = ⟨1, 0⟩ ∧ ¬ (selectAction 2).commandId = 2 := by decide

/-- C4 (amended): at counter 0 the scheduler selects the plain message
(command_id 1, price 0); at positive counters divisible by 8 the priced
sticker (command_id 3, price 1000000); at positive counters divisible
by 5 but not by 8 the file transfer (command_id 2) under the mod-5
policy of the source; at every other positive counter, among them 2, 4
and 6, the plain message. -/
theorem c4_action_policy (n : Nat) :
    (n = 0 → selectAction n = ⟨1, 0⟩) ∧
    (0 < n → n % 8 = 0 → selectAction n = ⟨3, 1000000⟩) ∧
    (0 < n → n % 5 = 0 → n % 8 ≠ 0 → selectAction n = ⟨2, 0⟩) ∧
    (0 < n → n % 5 ≠ 0 → n % 8 ≠ 0 → selectAction n = ⟨1, 0⟩) := by
  refine ⟨?_, ?_, ?_, ?_⟩
  · intro h
    subst h
    rfl
  · intro h1 h8
    unfold selectAction
    rw [if_pos ⟨h1, h8⟩]
  · intro h1 h5 h8
    unfold selectAction
    rw [if_neg (fun hc => h8 hc.2), if_pos ⟨h1, h5⟩]
  · intro h1 h5 h8
    unfold selectAction
    rw [if_neg (fun hc => h8 hc.2), if_neg (fun hc => h5 hc.2)]

/-- Witness for c4_action_policy at counters 8, 5 and 2. -/
theorem c4_action_policy_witness :
    selectAction 8 = ⟨3, 1000000⟩ ∧ selectAction 5 = ⟨2, 0⟩ ∧
    selectAction 2 = ⟨1, 0⟩ :=
  ⟨(c4_action_policy 8).2.1 (by norm_num) (by norm_num),
    (c4_action_policy 5).2.2.1 (by norm_num) (by norm_num) (by norm_num),
    (c4_action_policy 2).2.2.2 (by norm_num) (by norm_num) (by norm_num)⟩

/-- C5 (amended): after a subscription attempt opened at time t fails
with a gRPC error at time t + d, the next attempt is opened exactly at
t + d + 5, the fixed backoff with no growth; absent a stop signal there
is always one more attempt than there are completed outcomes, so
retrying never stops; a stream that terminates without a gRPC error is
reopened immediately, with no backoff. -/
theorem c5_reconnect_policy (t d : Nat) (rest outs : List StreamOutcome) :
    attemptTimes t (StreamOutcome.rpcError d :: rest) =
      t :: attemptTimes (t + d + 5) rest ∧
    (attemptTimes (t + d + 5) rest).head? = some (t + d + 5) ∧
    (attemptTimes t outs).length = outs.length + 1 := by
  refine ⟨rfl, ?_, ?_⟩
  · cases rest with
    | nil => rfl
    | cons o os => cases o <;> rfl
  · induction outs generalizing t with
    | nil => rfl
    | cons o os ih => cases o <;> simp [attemptTimes, ih]

/-- C5 counterexample: a stream that terminates normally at time 3 is
resubscribed at time 3 itself, not no earlier than the 5-unit backoff
after the termination as the claim states for every termination. -/
theorem c5_immediate_retry_cex :
    attemptTimes 0 [StreamOutcome.ended 3] = [0, 3] := rfl

/-- C6 (amended): every mutation of the shared chat log and status map
performed by an event-stream consumer holds the single shared mutex,
but the admin ban buttons and the human message form append to the chat
log without holding it. -/
theorem c6_lock_discipline (e : StreamEvent) :
    (listenerMutations e).all (fun m => m.underLock) = true ∧
    banButtonMutations.all (fun m => m.underLock) = false ∧
    humanMessageFormMutations.all (fun m => m.underLock) = false := by
  refine ⟨?_, rfl, rfl⟩
  cases e with
  | userBanned => rfl
  | other => rfl
  | userCommandDispatched senderPda commandId payload =>
    simp only [listenerMutations]
    split
    · split
      · split <;> rfl
      · rfl
    · split
      · rfl
      · split <;> rfl

/-- C6 counterexample: the chat-log append of the admin ban action and
of the human message submission are performed without the lock. -/
theorem c6_unlocked_admin_cex :
    banButtonMutations = [⟨MutTarget.chatLogTarget, false⟩] ∧
    humanMessageFormMutations = [⟨MutTarget.chatLogTarget, false⟩] ∧
    banButtonMutations.all (fun m => m.underLock) = false := ⟨rfl, rfl, rfl⟩

/-- C7 (amended): an error raised by a dispatch inside a bot turn is
not caught by the scheduling loop: the loop terminates at the failing
turn with the scheduler state unchanged and executes no further turns,
while a successful dispatch advances the state and the loop continues. -/
theorem c7_dispatch_error_terminates (status : List (String × String))
    (s : SchedState) (rest : List Bool)
    (h : ¬ status.lookup (senderName s.turn) = some ("Banned")) :
    runBotChat status s (false :: rest) = (s, true) ∧
    runBotChat status s (true :: rest) =
      runBotChat status (botChatStep status s).1 rest := by
  constructor
  · simp [runBotChat, h]
  · simp [runBotChat, h]

/-- Witness for c7_dispatch_error_terminates with both bots online and
the first dispatch raising. -/
theorem c7_dispatch_error_terminates_witness :
    runBotChat [] ⟨0, 0, 0⟩ [false] = (⟨0, 0, 0⟩, true) :=
  (c7_dispatch_error_terminates [] ⟨0, 0, 0⟩ [] (by decide)).1

/-- C7 counterexample: with both bots online, a raising dispatch at
turn 0 terminates the loop with the turn not advanced; the following
successful turn is never executed, against the claim that the
scheduling loop keeps running after a failed dispatch. -/
theorem c7_loop_crash_cex :
    runBotChat [] ⟨0, 0, 0⟩ [false, true] = (⟨0, 0, 0⟩, true) := rfl

/-- C8: when the one-shot on-chain setup raises with any message, the
failure is caught and written to the operational log, it is echoed into
the chat log, the status of both bot identities becomes Error, no
background threads start, and the UI still runs (degraded mode). -/
theorem c8_setup_failure_degraded (e : String) :
    mainInit (Except.error e) =
      ⟨["ERROR: On-chain setup failed: " ++ e],
        [("Alice", "Error"), ("Bob", "Error")],
        ["!!! ON-CHAIN SETUP FAILED: " ++ e], false, true⟩ ∧
    (mainInit (Except.error e)).botStatus.lookup ("Alice") = some ("Error") ∧
    (mainInit (Except.error e)).botStatus.lookup ("Bob") = some ("Error") ∧
    (mainInit (Except.error e)).uiRuns = true :=
  ⟨rfl, rfl, rfl, rfl⟩

/-- C9: every price-0 dispatch (plain message, simulated file transfer,
human message) is authorized by a freshly generated single-use keypair,
while the priced sticker (command_id 3, price 1000000) is authorized by
the pre-registered admin key. -/
theorem c9_oracle_key_usage (ts : Int) (message text : String)
    (serializedConfig : List Nat) :
    (sendMessageCall ts message).price = 0 ∧
    (sendMessageCall ts message).oracle = OracleKey.freshKeypair ∧
    (fileTransferCall ts serializedConfig).price = 0 ∧
    (fileTransferCall ts serializedConfig).oracle = OracleKey.freshKeypair ∧
    (humanMessageCall ts text).price = 0 ∧
    (humanMessageCall ts text).oracle = OracleKey.freshKeypair ∧
    (paidFeatureCall ts).commandId = 3 ∧
    (paidFeatureCall ts).price = 1000000 ∧
    (paidFeatureCall ts).oracle = OracleKey.adminKey :=
  ⟨rfl, rfl, rfl, rfl, rfl, rfl, rfl, rfl, rfl⟩

/-- C10: at each of the four dispatch sites the signed 18-byte
authorization message encodes exactly the command_id, price and
timestamp passed to the dispatch itself. -/
theorem c10_signature_covers_dispatch (ts : Int) (message text : String)
    (serializedConfig : List Nat) :
    (sendMessageCall ts message).msgToSign =
      encodeAuthMessage (sendMessageCall ts message).commandId
        (sendMessageCall ts message).price (sendMessageCall ts message).timestamp ∧
    (fileTransferCall ts serializedConfig).msgToSign =
      encodeAuthMessage (fileTransferCall ts serializedConfig).commandId
        (fileTransferCall ts serializedConfig).price
        (fileTransferCall ts serializedConfig).timestamp ∧
    (paidFeatureCall ts).msgToSign =
      encodeAuthMessage (paidFeatureCall ts).commandId
        (paidFeatureCall ts).price (paidFeatureCall ts).timestamp ∧
    (humanMessageCall ts text).msgToSign =
      encodeAuthMessage (humanMessageCall ts text).commandId
        (humanMessageCall ts text).price (humanMessageCall ts text).timestamp ∧
    (sendMessageCall ts message).msgToSign.length = 18 ∧
    (fileTransferCall ts serializedConfig).msgToSign.length = 18 ∧
    (paidFeatureCall ts).msgToSign.length = 18 ∧
    (humanMessageCall ts text).msgToSign.length = 18 := by
  refine ⟨rfl, rfl, rfl, rfl, ?_, ?_, ?_, ?_⟩ <;>
    simp [sendMessageCall, fileTransferCall, paidFeatureCall,
      humanMessageCall, int64ToBytesLE, toBytesLE_length]

end W3b2Client
